import Mathlib

/-!
Shallow embedding of the finance-flow web client ("Trackr"): the token
store and axios interceptors of `src/lib/api.ts` (identical in
`src/unnamed/part_003`), the auth context of
`src/contexts/AuthContext.tsx`, the Upload page helpers of
`src/pages/Upload.tsx`, the upload progress callback of
`expensesAPI.upload` / `statementsAPI.upload`, and the client-side
analytics/budget display values of the Analytics and Budgets pages.

Strings model JavaScript strings; JavaScript truthiness of a string is
`s ≠ ""`, of a number `x ≠ 0`, and of `undefined`/missing `false`.
Numbers are modelled as exact rationals (byte counts as naturals).
-/

namespace Trackr

/-- JavaScript truthiness of an optional string: `undefined` and the
empty string are falsy, every other string is truthy. -/
def isTruthyStr : Option String → Bool
  | some s => s ≠ ""
  | none => false

/-! ## Token store (`src/lib/api.ts`, lines 5-27)

Local storage holds at most one access token and one refresh token
(keys `trackr_access_token`, `trackr_refresh_token`); a missing key is
`none`. -/

structure Storage where
  access : Option String
  refresh : Option String
deriving DecidableEq

/-- getAccessToken: `localStorage.getItem(TOKEN_KEY)`. -/
def getAccessToken (st : Storage) : Option String := st.access

/-- getRefreshToken: `localStorage.getItem(REFRESH_TOKEN_KEY)`. -/
def getRefreshToken (st : Storage) : Option String := st.refresh

/-- setTokens: stores the access token unconditionally and the refresh
token only when the `refresh` argument is truthy
(`if (refresh) { localStorage.setItem(REFRESH_TOKEN_KEY, refresh) }`). -/
def setTokens (st : Storage) (access : String) (refresh : Option String) : Storage :=
  let st1 : Storage := { st with access := some access }
  if isTruthyStr refresh then { st1 with refresh := refresh } else st1

/-- clearTokens: removes both stored tokens. -/
def clearTokens (_st : Storage) : Storage :=
  { access := none, refresh := none }

/-! ## Response interceptor (`src/lib/api.ts`, lines 50-83)

The interceptor runs on a rejected response.  The app state couples the
token storage with the in-memory user of the auth context; assigning
`window.location.href = '/login'` performs a full document navigation,
which discards all in-memory React state, so the model represents the
redirect by also resetting the user to `none` (the `AuthProvider`
initial state). -/

structure User where
  id : Nat
  email : String
deriving DecidableEq

structure AppState where
  storage : Storage
  user : Option User
deriving DecidableEq

/-- Request config, reduced to the fields the interceptor reads and
writes: the `_retry` flag and the `Authorization` header. -/
structure ReqConfig where
  retry : Bool
  authHeader : Option String
deriving DecidableEq

/-- Axios error as seen by the response interceptor:
`error.response?.status` (`none` when there was no response) and
`error.config`. -/
structure AxiosErr where
  status : Option Nat
  config : ReqConfig
deriving DecidableEq

/-- Outcome of the `axios.post(.../token/refresh/)` call: either a
response whose data carries a new `access` token, or a rejection. -/
inductive RefreshEnv
  | ok (access : String)
  | fail
deriving DecidableEq

/-- Which promise rejection the interceptor propagates: the original
error (`return Promise.reject(error)`) or the refresh error
(`return Promise.reject(refreshError)`). -/
inductive RejectKind
  | originalError
  | refreshError
deriving DecidableEq

/-- Result of one interceptor pass: `return api(originalRequest)`
(replay with the given config) or a promise rejection. -/
inductive InterceptResult
  | replay (cfg : ReqConfig)
  | reject (e : RejectKind)
deriving DecidableEq

structure InterceptOut where
  state : AppState
  refreshCount : Nat
  redirected : Bool
  result : InterceptResult
deriving DecidableEq

/-- Response interceptor error handler, lines 52-82 of `src/lib/api.ts`:
on a 401 whose config has no `_retry` flag, set the flag; if a refresh
token is stored, post to the refresh endpoint (`refreshCount` counts
these posts); on refresh success store the new access token, set the
`Authorization` header and replay; on refresh failure clear tokens,
redirect to `/login` and reject with the refresh error; with no stored
refresh token clear tokens, redirect, and fall through to rejecting the
original error.  Any other error is rejected unchanged. -/
def interceptStep (st : AppState) (err : AxiosErr) (env : RefreshEnv) : InterceptOut :=
  let originalRequest := err.config
  if err.status = some 401 ∧ originalRequest.retry = false then
    let orig : ReqConfig := { originalRequest with retry := true }
    if isTruthyStr (getRefreshToken st.storage) then
      match env with
      | .ok access =>
          let storage := setTokens st.storage access none
          let orig : ReqConfig := { orig with authHeader := some ("Bearer " ++ access) }
          { state := { st with storage := storage }, refreshCount := 1,
            redirected := false, result := .replay orig }
      | .fail =>
          { state := { storage := clearTokens st.storage, user := none },
            refreshCount := 1, redirected := true, result := .reject .refreshError }
    else
      { state := { storage := clearTokens st.storage, user := none },
        refreshCount := 0, redirected := true, result := .reject .originalError }
  else
    { state := st, refreshCount := 0, redirected := false, result := .reject .originalError }

/-- Number of replays a single interceptor pass performs. -/
def replayCount : InterceptResult → Nat
  | .replay _ => 1
  | .reject _ => 0

/-- Total refresh posts and replays caused by one original request: the
first interceptor pass plus, when that pass replays the request and the
replay fails again with status `status2`, the second interceptor pass on
the replayed config. -/
def interceptTwice (st : AppState) (err : AxiosErr) (env : RefreshEnv)
    (status2 : Option Nat) (env2 : RefreshEnv) : Nat × Nat :=
  let o1 := interceptStep st err env
  match o1.result with
  | .replay cfg =>
      let o2 := interceptStep o1.state { status := status2, config := cfg } env2
      (o1.refreshCount + o2.refreshCount, 1 + replayCount o2.result)
  | .reject _ => (o1.refreshCount, 0)

/-! ## Auth context (`src/contexts/AuthContext.tsx`)

The file holds two near-identical revisions of the provider; the model
follows the second (lines 174-282, username-based), whose `login` is the
one at lines 201-220 — the first revision (lines 63-82) differs only in
the request payload and in the fallback text of the error message. -/

/-- Error payload shape inspected by the login catch block:
`error.response?.data` with its `detail`, `message` and
`non_field_errors` fields.  An absent or empty `non_field_errors` array
is modelled as `[]` (both make `non_field_errors?.[0]` falsy). -/
structure ErrData where
  detail : Option String
  message : Option String
  non_field_errors : List String
deriving DecidableEq

/-- First truthy string of the list, else the default: the JavaScript
chain `a || b || c || dflt`. -/
def firstTruthy : List (Option String) → String → String
  | [], dflt => dflt
  | a :: rest, dflt =>
      match a with
      | some s => if s = "" then firstTruthy rest dflt else s
      | none => firstTruthy rest dflt

/-- Message computed by the login catch block, lines 214-217: the chain
`error.response?.data?.detail || error.response?.data?.message ||
error.response?.data?.non_field_errors?.[0]` with the fixed fallback
text `Invalid username or password`. -/
def loginErrorMessage (d : Option ErrData) : String :=
  match d with
  | none => firstTruthy [] "Invalid username or password"
  | some data =>
      firstTruthy [data.detail, data.message, data.non_field_errors.head?]
        "Invalid username or password"

/-- Outcome of the `authAPI.getMe()` call. -/
inductive MeEnv
  | ok (u : User)
  | err (d : Option ErrData)
deriving DecidableEq

/-- Outcome of the `authAPI.login(...)` call; on success the response
data carries `access` and `refresh` tokens and the subsequent
`authAPI.getMe()` has outcome `me`. -/
inductive LoginEnv
  | ok (access refresh : String) (me : MeEnv)
  | err (d : Option ErrData)
deriving DecidableEq

structure LoginResult where
  success : Bool
  error : Option String
deriving DecidableEq

/-- login, lines 201-220: on a successful login request store both
returned tokens, then fetch the profile and set the user; any thrown
error is caught and turned into `{ success: false, error: message }`.
Note the token store is written before the profile fetch, so a failure
of `getMe` lands in the catch block with the new tokens already
stored. -/
def login (st : AppState) (env : LoginEnv) : AppState × LoginResult :=
  match env with
  | .ok access refresh me =>
      let st1 : AppState := { st with storage := setTokens st.storage access (some refresh) }
      match me with
      | .ok u => ({ st1 with user := some u }, { success := true, error := none })
      | .err d => (st1, { success := false, error := some (loginErrorMessage d) })
  | .err d => (st, { success := false, error := some (loginErrorMessage d) })

/-- refreshUser, lines 178-195: with no (truthy) stored access token set
the user to `null` and return; otherwise fetch the profile and set the
user, and on failure set the user to `null` and clear the tokens. -/
def refreshUser (st : AppState) (env : MeEnv) : AppState :=
  if isTruthyStr (getAccessToken st.storage) = false then
    { st with user := none }
  else
    match env with
    | .ok u => { st with user := some u }
    | .err _ => { storage := clearTokens st.storage, user := none }

/-- Termination mode of `logout`: `normal` when the promise resolves,
`threw` when an error propagates to the caller. -/
inductive LogoutOutcome
  | normal
  | threw
deriving DecidableEq

/-- logout, lines 260-269: `await authAPI.logout()` inside a `try` whose
`catch` ignores the error, with a `finally` that clears the tokens and
sets the user to `null`; `backendOk` is the outcome of the backend
call. -/
def logout (st : AppState) (backendOk : Bool) : AppState × LogoutOutcome :=
  let afterTry : LogoutOutcome :=
    match backendOk with
    | true => .normal
    | false => .normal
  ({ storage := clearTokens st.storage, user := none }, afterTry)

/-! ## Upload page (`src/pages/Upload.tsx`) -/

/-- File as inspected by `isValidFile`: its MIME `type` and `name`. -/
structure UploadFile where
  type : String
  name : String
deriving DecidableEq

/-- validTypes, lines 153-157. -/
def validTypes : List String :=
  ["text/csv", "application/vnd.ms-excel",
   "application/vnd.openxmlformats-officedocument.spreadsheetml.sheet"]

/-- validExtensions, line 158. -/
def validExtensions : List String := [".csv", ".xls", ".xlsx"]

/-- JavaScript String.prototype.toLowerCase, modelled on the character
list of the string. -/
def jsToLower (s : String) : String :=
  ⟨s.data.map Char.toLower⟩

/-- JavaScript String.prototype.endsWith, modelled as a suffix check on
the character lists. -/
def jsEndsWith (s suffix : String) : Bool :=
  suffix.data.isSuffixOf s.data

/-- isValidFile, lines 152-164: the MIME type is in `validTypes`, or the
lowercased name ends in one of `validExtensions`. -/
def isValidFile (f : UploadFile) : Bool :=
  validTypes.contains f.type ||
    validExtensions.any (fun ext => jsEndsWith (jsToLower f.name) ext)

/-- Preview row (`PreviewTransaction extends Expense`): the `Expense`
shape of `src/lib/api.ts` lines 99-110 (whose `amount` is
`number | string`) plus the optional `isEditing` flag. -/
structure PreviewTransaction where
  id : Nat
  amount : ℚ ⊕ String
  category : Option Int
  category_name : Option String
  description : String
  date : String
  transaction_type : String
  notes : Option String
  isEditing : Option Bool
deriving DecidableEq

/-- Category shape of `src/lib/api.ts` lines 121-127. -/
structure Category where
  id : Int
  name : String
  icon : Option String
  color : Option String
  is_default : Option Bool
deriving DecidableEq

/-- handleCategoryChange, lines 184-196: map over the previous preview
list, replacing the element at `index` with a copy whose `category` is
the parsed id and whose `category_name` is the name of the matching
category (if any); every other element is returned as-is.  `cid` stands
for `parseInt(categoryId)`, where `categoryId` is `String(category.id)`
from the select, so parsing round-trips to the id. -/
def handleCategoryChange (categories : List Category)
    (prev : List PreviewTransaction) (index : Nat) (cid : Int) :
    List PreviewTransaction :=
  prev.mapIdx fun i t =>
    if i = index then
      { t with
        category := some cid,
        category_name := (categories.find? (fun c => c.id == cid)).map (·.name) }
    else t

/-! ## Upload progress callback (`src/lib/api.ts`, lines 243-248;
identically `statementsAPI.upload` in `src/unnamed/part_003`) -/

/-- Math.round: round half toward positive infinity, which equals
`⌊x + 1/2⌋` for every real argument. -/
def jsRound (x : ℚ) : ℤ := ⌊x + 1/2⌋

/-- onUploadProgress handler: the callback fires only when an
`onProgress` callback was supplied and `progressEvent.total` is truthy
(defined and nonzero); it is passed
`Math.round((progressEvent.loaded * 100) / progressEvent.total)`.
`loaded` and `total` are byte counts; the returned value is the argument
passed to `onProgress`, `none` when the callback is skipped. -/
def uploadProgressReport (hasCallback : Bool) (loaded : Nat)
    (total : Option Nat) : Option Int :=
  match total with
  | some t =>
      if hasCallback = true ∧ t ≠ 0 then
        some (jsRound ((loaded : ℚ) * 100 / (t : ℚ)))
      else none
  | none => none

/-! ## Analytics and Budgets display values

The Analytics page sits in `src/contexts/AuthContext.tsx` after the
second separator (lines 317-406) and imports the analytics types of
`src/unnamed/part_003`; the Budgets page is `src/unnamed/part_001`. -/

/-- AnalyticsSummary of `src/unnamed/part_003`, lines 157-163. -/
structure AnalyticsSummary where
  total_income : ℚ
  total_expenses : ℚ
  net_balance : ℚ
  expense_count : Nat
  income_count : Nat
deriving DecidableEq

/-- JavaScript `x || 0` on a possibly-missing number: `0` when the value
is absent or falsy (zero), else the value itself. -/
def jsOrZero : Option ℚ → ℚ
  | some v => if v = 0 then 0 else v
  | none => 0

/-- Net Balance stat card value: `summary?.net_balance || 0`. -/
def netBalanceValue (s : Option AnalyticsSummary) : ℚ :=
  jsOrZero (s.map (·.net_balance))

/-- Total Income stat card value: `summary?.total_income || 0`. -/
def totalIncomeValue (s : Option AnalyticsSummary) : ℚ :=
  jsOrZero (s.map (·.total_income))

/-- Total Expenses stat card value: `summary?.total_expenses || 0`. -/
def totalExpensesValue (s : Option AnalyticsSummary) : ℚ :=
  jsOrZero (s.map (·.total_expenses))

/-- Savings Rate stat card value, Analytics page lines 398-406: when
`summary?.total_income` is truthy the page displays
`Math.round(((total_income - total_expenses) / total_income) * 100)`
followed by a percent sign, else the literal `0%`; the model carries the
displayed number. -/
def savingsRateValue (s : Option AnalyticsSummary) : Int :=
  match s with
  | some sum =>
      if sum.total_income ≠ 0 then
        jsRound ((sum.total_income - sum.total_expenses) / sum.total_income * 100)
      else 0
  | none => 0

/-- Budget shape of `src/lib/api.ts`, lines 137-146, amounts as exact
rationals. -/
structure Budget where
  id : Nat
  category : Nat
  category_name : Option String
  amount : ℚ
  month : String
  spent : Option ℚ
  remaining : Option ℚ
  is_over_budget : Option Bool
deriving DecidableEq

/-- getProgressPercentage, Budgets page (`src/unnamed/part_001`) lines
126-129: `const spent = budget.spent || 0;
return Math.min((spent / budget.amount) * 100, 100)`. -/
def getProgressPercentage (b : Budget) : ℚ :=
  let spent := jsOrZero b.spent
  min (spent / b.amount * 100) 100

/-- Remaining amount shown on a budget card, line 263:
`budget.remaining || budget.amount - spent` (with
`spent = budget.spent || 0`), so a missing or zero `remaining` field is
replaced by the client-side difference. -/
def budgetRemaining (b : Budget) : ℚ :=
  let spent := jsOrZero b.spent
  match b.remaining with
  | some r => if r = 0 then b.amount - spent else r
  | none => b.amount - spent

/-! ## Helper lemmas -/

/-- Characterization of the interceptor branch that refreshes
successfully. -/
theorem interceptStep_refresh_ok (st : AppState) (err : AxiosErr)
    (a : String) (h1 : err.status = some 401) (h2 : err.config.retry = false)
    (h3 : isTruthyStr (getRefreshToken st.storage) = true) :
    interceptStep st err (.ok a) =
      { state := { st with storage := setTokens st.storage a none },
        refreshCount := 1, redirected := false,
        result := .replay { retry := true,
                            authHeader := some ("Bearer " ++ a) } } := by
  simp [interceptStep, h1, h2, h3]

/-- Characterization of the interceptor branch whose refresh request
fails. -/
theorem interceptStep_refresh_fail (st : AppState) (err : AxiosErr)
    (h1 : err.status = some 401) (h2 : err.config.retry = false)
    (h3 : isTruthyStr (getRefreshToken st.storage) = true) :
    interceptStep st err .fail =
      { state := { storage := { access := none, refresh := none }, user := none },
        refreshCount := 1, redirected := true,
        result := .reject .refreshError } := by
  simp [interceptStep, h1, h2, h3, clearTokens]

/-- Characterization of the interceptor branch with no stored refresh
token. -/
theorem interceptStep_no_token (st : AppState) (err : AxiosErr)
    (env : RefreshEnv) (h1 : err.status = some 401)
    (h2 : err.config.retry = false)
    (h3 : isTruthyStr (getRefreshToken st.storage) = false) :
    interceptStep st err env =
      { state := { storage := { access := none, refresh := none }, user := none },
        refreshCount := 0, redirected := true,
        result := .reject .originalError } := by
  simp [interceptStep, h1, h2, h3, clearTokens]

/-- Characterization of the interceptor on everything that is not an
unretried 401. -/
theorem interceptStep_passthrough (st : AppState) (err : AxiosErr)
    (env : RefreshEnv)
    (h : ¬(err.status = some 401 ∧ err.config.retry = false)) :
    interceptStep st err env =
      { state := st, refreshCount := 0, redirected := false,
        result := .reject .originalError } := by
  simp [interceptStep, h]

/-- Every interceptor pass posts to the refresh endpoint at most once. -/
theorem interceptStep_refreshCount_le (st : AppState) (err : AxiosErr)
    (env : RefreshEnv) : (interceptStep st err env).refreshCount ≤ 1 := by
  by_cases h1 : err.status = some 401 ∧ err.config.retry = false
  · by_cases h2 : isTruthyStr (getRefreshToken st.storage) = true
    · cases env with
      | ok a => rw [interceptStep_refresh_ok st err a h1.1 h1.2 h2]
      | fail => rw [interceptStep_refresh_fail st err h1.1 h1.2 h2]
    · rw [interceptStep_no_token st err env h1.1 h1.2 (by simpa using h2)]
      exact Nat.zero_le 1
  · rw [interceptStep_passthrough st err env h1]
    exact Nat.zero_le 1

/-- Every config the interceptor replays carries the retry flag. -/
theorem interceptStep_replay_retry (st : AppState) (err : AxiosErr)
    (env : RefreshEnv) (cfg : ReqConfig)
    (h : (interceptStep st err env).result = .replay cfg) : cfg.retry = true := by
  by_cases h1 : err.status = some 401 ∧ err.config.retry = false
  · by_cases h2 : isTruthyStr (getRefreshToken st.storage) = true
    · cases env with
      | ok a =>
          rw [interceptStep_refresh_ok st err a h1.1 h1.2 h2] at h
          simp only [InterceptResult.replay.injEq] at h
          rw [← h]
      | fail =>
          rw [interceptStep_refresh_fail st err h1.1 h1.2 h2] at h
          simp at h
    · rw [interceptStep_no_token st err env h1.1 h1.2 (by simpa using h2)] at h
      simp at h
  · rw [interceptStep_passthrough st err env h1] at h
    simp at h

/-- On a request whose retry flag is already set, the interceptor leaves
the state untouched and rejects the original error without refreshing. -/
theorem interceptStep_of_retry (st : AppState) (err : AxiosErr)
    (env : RefreshEnv) (h : err.config.retry = true) :
    interceptStep st err env =
      { state := st, refreshCount := 0, redirected := false,
        result := .reject .originalError } := by
  simp [interceptStep, h]

/-! ## C7: logout -/

/-- C7: for every invocation of logout, whether or not the backend
logout request succeeds, the call resolves normally and afterwards both
stored tokens are removed and the in-memory user is null. -/
theorem logout_total_and_clears :
    ∀ (st : AppState) (backendOk : Bool),
      (logout st backendOk).2 = .normal ∧
      (logout st backendOk).1.storage.access = none ∧
      (logout st backendOk).1.storage.refresh = none ∧
      (logout st backendOk).1.user = none := by
  intro st backendOk
  cases backendOk <;> simp [logout, clearTokens]

/-! ## C8: setTokens frame property -/

/-- C8: setTokens with no refresh argument updates the access token and
leaves the refresh token unchanged; consequently a successful
interceptor token refresh (which calls `setTokens(access)`) preserves
the previously stored refresh token while storing the new access
token. -/
theorem setTokens_no_refresh_frame :
    ∀ (sto : Storage) (a : String) (st : AppState) (err : AxiosErr)
      (rt acc : String),
      setTokens sto a none = { access := some a, refresh := sto.refresh } ∧
      (err.status = some 401 → err.config.retry = false →
        st.storage.refresh = some rt → rt ≠ "" →
        (interceptStep st err (.ok acc)).state.storage.refresh = st.storage.refresh ∧
        (interceptStep st err (.ok acc)).state.storage.access = some acc) := by
  intro sto a st err rt acc
  constructor
  · cases sto
    simp [setTokens, isTruthyStr]
  · intro h401 hret hrt hne
    simp [interceptStep, h401, hret, getRefreshToken, hrt, isTruthyStr, hne,
      setTokens]

/-- Witness for C8 at a concrete store and error. -/
theorem setTokens_no_refresh_frame_witness :
    setTokens ⟨some "old", some "keep"⟩ "new" none =
      { access := some "new", refresh := some "keep" } ∧
    (interceptStep ⟨⟨some "old", some "keep"⟩, none⟩
        ⟨some 401, ⟨false, none⟩⟩ (.ok "fresh")).state.storage.refresh = some "keep" := by
  refine ⟨(setTokens_no_refresh_frame ⟨some "old", some "keep"⟩ "new"
    ⟨⟨some "old", some "keep"⟩, none⟩ ⟨some 401, ⟨false, none⟩⟩ "keep" "fresh").1, ?_⟩
  have h := (setTokens_no_refresh_frame ⟨some "old", some "keep"⟩ "new"
    ⟨⟨some "old", some "keep"⟩, none⟩ ⟨some 401, ⟨false, none⟩⟩ "keep" "fresh").2
    rfl rfl rfl (by decide)
  exact h.1

/-! ## C5: file validation -/

/-- C5: isValidFile returns false exactly when both checks fail — the
MIME type is none of the accepted types and the lowercased name ends in
none of the accepted extensions; equivalently the file is accepted
whenever either check passes. -/
theorem isValidFile_false_iff :
    ∀ f : UploadFile,
      isValidFile f = false ↔
        f.type ∉ validTypes ∧
          ∀ ext ∈ validExtensions, jsEndsWith (jsToLower f.name) ext = false := by
  intro f
  have hc : (validTypes.contains f.type = false) ↔ f.type ∉ validTypes := by
    rw [Bool.eq_false_iff, Ne, List.elem_iff]
  simp only [isValidFile, Bool.or_eq_false_iff, List.any_eq_false,
    Bool.not_eq_true, hc]

/-- Witness for C5: a file failing both checks is rejected. -/
theorem isValidFile_false_iff_witness :
    isValidFile ⟨"text/plain", "statement.pdf"⟩ = false :=
  (isValidFile_false_iff ⟨"text/plain", "statement.pdf"⟩).mpr (by decide)

/-! ## C1: single refresh-and-replay -/

/-- C1: a 401 whose config has no retry flag gets the flag set and, when
a refresh token is stored and the refresh succeeds, causes exactly one
refresh request and exactly one replay carrying the new access token; a
request whose retry flag is already set triggers no refresh and no
replay; hence across the original pass and any second pass on the
replayed request, at most one refresh and one replay ever happen. -/
theorem interceptor_single_refresh_and_replay :
    ∀ (st : AppState) (err : AxiosErr) (env : RefreshEnv)
      (status2 : Option Nat) (env2 : RefreshEnv),
      (err.config.retry = true →
        (interceptStep st err env).refreshCount = 0 ∧
        replayCount (interceptStep st err env).result = 0) ∧
      (∀ rt a, err.config.retry = false → err.status = some 401 →
        st.storage.refresh = some rt → rt ≠ "" → env = .ok a →
        (interceptStep st err env).refreshCount = 1 ∧
        (interceptStep st err env).result =
          .replay { retry := true, authHeader := some ("Bearer " ++ a) }) ∧
      (interceptTwice st err env status2 env2).1 ≤ 1 ∧
      (interceptTwice st err env status2 env2).2 ≤ 1 := by
  intro st err env status2 env2
  refine ⟨?_, ?_, ?_, ?_⟩
  · intro h
    rw [interceptStep_of_retry st err env h]
    exact ⟨rfl, rfl⟩
  · intro rt a hret h401 hrt hne henv
    subst henv
    have h3 : isTruthyStr (getRefreshToken st.storage) = true := by
      simp [getRefreshToken, hrt, isTruthyStr, hne]
    rw [interceptStep_refresh_ok st err a h401 hret h3]
    exact ⟨rfl, rfl⟩
  · simp only [interceptTwice]
    cases hres : (interceptStep st err env).result with
    | replay cfg =>
        have hcr : cfg.retry = true := interceptStep_replay_retry st err env cfg hres
        have h2 := interceptStep_of_retry (interceptStep st err env).state
          ⟨status2, cfg⟩ env2 hcr
        simp only [h2]
        simpa using interceptStep_refreshCount_le st err env
    | reject e =>
        simpa using interceptStep_refreshCount_le st err env
  · simp only [interceptTwice]
    cases hres : (interceptStep st err env).result with
    | replay cfg =>
        have hcr : cfg.retry = true := interceptStep_replay_retry st err env cfg hres
        have h2 := interceptStep_of_retry (interceptStep st err env).state
          ⟨status2, cfg⟩ env2 hcr
        simp only [h2]
        simp [replayCount]
    | reject e =>
        simp

/-- Witness for C1: a concrete first 401 with a stored refresh token and
a successful refresh replays once, and even if the replay fails with 401
again no further refresh happens. -/
theorem interceptor_single_refresh_and_replay_witness :
    (interceptStep ⟨⟨some "old", some "rt"⟩, none⟩
        ⟨some 401, ⟨false, none⟩⟩ (.ok "fresh")).refreshCount = 1 ∧
    (interceptStep ⟨⟨some "old", some "rt"⟩, none⟩
        ⟨some 401, ⟨false, none⟩⟩ (.ok "fresh")).result =
      .replay { retry := true, authHeader := some ("Bearer " ++ "fresh") } ∧
    (interceptTwice ⟨⟨some "old", some "rt"⟩, none⟩
        ⟨some 401, ⟨false, none⟩⟩ (.ok "fresh") (some 401) (.ok "again")).1 ≤ 1 := by
  have h := interceptor_single_refresh_and_replay ⟨⟨some "old", some "rt"⟩, none⟩
    ⟨some 401, ⟨false, none⟩⟩ (.ok "fresh") (some 401) (.ok "again")
  have hb := h.2.1 "rt" "fresh" rfl rfl rfl (by decide) rfl
  exact ⟨hb.1, hb.2, h.2.2.1⟩

/-! ## C6: refresh failure clears tokens and redirects -/

/-- C6: on an unretried 401, when no refresh token is stored the
interceptor clears both tokens, redirects to the login route and rejects
with the original error; when a refresh token is stored but the refresh
request fails it clears both tokens, redirects, and rejects with the
refresh error. -/
theorem interceptor_failure_clears_and_redirects :
    ∀ (st : AppState) (err : AxiosErr) (env : RefreshEnv),
      err.status = some 401 → err.config.retry = false →
      (isTruthyStr st.storage.refresh = false →
        interceptStep st err env =
          { state := { storage := { access := none, refresh := none }, user := none },
            refreshCount := 0, redirected := true,
            result := .reject .originalError }) ∧
      (isTruthyStr st.storage.refresh = true →
        interceptStep st err .fail =
          { state := { storage := { access := none, refresh := none }, user := none },
            refreshCount := 1, redirected := true,
            result := .reject .refreshError }) := by
  intro st err env h401 hret
  exact ⟨fun h3 => interceptStep_no_token st err env h401 hret h3,
    fun h3 => interceptStep_refresh_fail st err h401 hret h3⟩

/-- Witness for C6 on a concrete store with and without a refresh
token. -/
theorem interceptor_failure_clears_and_redirects_witness :
    interceptStep ⟨⟨some "old", none⟩, none⟩ ⟨some 401, ⟨false, none⟩⟩ .fail =
      { state := { storage := { access := none, refresh := none }, user := none },
        refreshCount := 0, redirected := true,
        result := .reject .originalError } ∧
    interceptStep ⟨⟨some "old", some "rt"⟩, none⟩ ⟨some 401, ⟨false, none⟩⟩ .fail =
      { state := { storage := { access := none, refresh := none }, user := none },
        refreshCount := 1, redirected := true,
        result := .reject .refreshError } := by
  refine ⟨(interceptor_failure_clears_and_redirects ⟨⟨some "old", none⟩, none⟩
    ⟨some 401, ⟨false, none⟩⟩ .fail rfl rfl).1 (by decide), ?_⟩
  exact (interceptor_failure_clears_and_redirects ⟨⟨some "old", some "rt"⟩, none⟩
    ⟨some 401, ⟨false, none⟩⟩ .fail rfl rfl).2 (by decide)

/-! ## C4: clearing tokens clears the user -/

/-- C4: each operation that removes both stored tokens — the
interceptor refresh-failure path, the interceptor missing-refresh-token
path, the failed silent profile fetch, and logout — leaves the
in-memory user equal to null in the resulting state. -/
theorem token_clearing_clears_user :
    ∀ (st : AppState) (err : AxiosErr) (env : RefreshEnv) (d : Option ErrData)
      (backendOk : Bool),
      (err.status = some 401 → err.config.retry = false →
        isTruthyStr st.storage.refresh = true →
        (interceptStep st err .fail).state.storage = { access := none, refresh := none } ∧
        (interceptStep st err .fail).state.user = none) ∧
      (err.status = some 401 → err.config.retry = false →
        isTruthyStr st.storage.refresh = false →
        (interceptStep st err env).state.storage = { access := none, refresh := none } ∧
        (interceptStep st err env).state.user = none) ∧
      (isTruthyStr st.storage.access = true →
        (refreshUser st (.err d)).storage = { access := none, refresh := none } ∧
        (refreshUser st (.err d)).user = none) ∧
      ((logout st backendOk).1.storage = { access := none, refresh := none } ∧
        (logout st backendOk).1.user = none) := by
  intro st err env d backendOk
  refine ⟨?_, ?_, ?_, ?_⟩
  · intro h401 hret h3
    rw [interceptStep_refresh_fail st err h401 hret h3]
    exact ⟨rfl, rfl⟩
  · intro h401 hret h3
    rw [interceptStep_no_token st err env h401 hret h3]
    exact ⟨rfl, rfl⟩
  · intro hacc
    simp [refreshUser, getAccessToken, hacc, clearTokens]
  · cases backendOk <;> simp [logout, clearTokens]

/-- Witness for C4 at concrete states for all four operations. -/
theorem token_clearing_clears_user_witness :
    (interceptStep ⟨⟨some "t", some "rt"⟩, some ⟨1, "u"⟩⟩
        ⟨some 401, ⟨false, none⟩⟩ .fail).state.user = none ∧
    (interceptStep ⟨⟨some "t", none⟩, some ⟨1, "u"⟩⟩
        ⟨some 401, ⟨false, none⟩⟩ .fail).state.user = none ∧
    (refreshUser ⟨⟨some "t", some "rt"⟩, some ⟨1, "u"⟩⟩ (.err none)).user = none ∧
    (logout ⟨⟨some "t", some "rt"⟩, some ⟨1, "u"⟩⟩ false).1.user = none := by
  have h1 := token_clearing_clears_user ⟨⟨some "t", some "rt"⟩, some ⟨1, "u"⟩⟩
    ⟨some 401, ⟨false, none⟩⟩ .fail none false
  have h2 := token_clearing_clears_user ⟨⟨some "t", none⟩, some ⟨1, "u"⟩⟩
    ⟨some 401, ⟨false, none⟩⟩ .fail none false
  exact ⟨(h1.1 rfl rfl (by decide)).2, (h2.2.1 rfl rfl (by decide)).2,
    (h1.2.2.1 (by decide)).2, h1.2.2.2.2⟩

/-! ## C2: failed login -/

/-- The JavaScript fallback chain never returns the empty string when
the default is not empty. -/
theorem firstTruthy_ne_empty :
    ∀ (l : List (Option String)) (dflt : String),
      dflt ≠ "" → firstTruthy l dflt ≠ "" := by
  intro l
  induction l with
  | nil => intro dflt h; simpa [firstTruthy] using h
  | cons a rest ih =>
      intro dflt h
      cases a with
      | none => simpa [firstTruthy] using ih dflt h
      | some s =>
          by_cases hs : s = ""
          · simpa [firstTruthy, hs] using ih dflt h
          · simp only [firstTruthy, hs, if_false]
            exact hs

/-- The JavaScript fallback chain returns the default or one of the
chained values. -/
theorem firstTruthy_eq_default_or_mem :
    ∀ (l : List (Option String)) (dflt : String),
      firstTruthy l dflt = dflt ∨ some (firstTruthy l dflt) ∈ l := by
  intro l
  induction l with
  | nil => intro dflt; exact Or.inl rfl
  | cons a rest ih =>
      intro dflt
      cases a with
      | none =>
          have he : firstTruthy (none :: rest) dflt = firstTruthy rest dflt := rfl
          rcases ih dflt with h | h
          · exact Or.inl (he.trans h)
          · exact Or.inr (by rw [he]; exact List.mem_cons_of_mem _ h)
      | some s =>
          by_cases hs : s = ""
          · have he : firstTruthy (some s :: rest) dflt = firstTruthy rest dflt := by
              simp [firstTruthy, hs]
            rcases ih dflt with h | h
            · exact Or.inl (he.trans h)
            · exact Or.inr (by rw [he]; exact List.mem_cons_of_mem _ h)
          · refine Or.inr ?_
            simp [firstTruthy, hs]

/-- The login error message is never empty. -/
theorem loginErrorMessage_ne_empty (d : Option ErrData) :
    loginErrorMessage d ≠ "" := by
  cases d with
  | none => simp [loginErrorMessage, firstTruthy]
  | some data => exact firstTruthy_ne_empty _ _ (by decide)

/-- Counterexample to C2 as stated: when the login request succeeds but
the subsequent profile fetch fails, the call returns success = false
even though the stored tokens changed from empty to the freshly returned
pair. -/
theorem login_counterexample_tokens_changed :
    (login ⟨⟨none, none⟩, none⟩ (.ok "acc" "ref" (.err none))).2.success = false ∧
    (login ⟨⟨none, none⟩, none⟩ (.ok "acc" "ref" (.err none))).1.storage ≠
      (⟨none, none⟩ : Storage) := by
  constructor
  · rfl
  · simp [login, setTokens, isTruthyStr]

/-- C2 (amended): every login invocation that returns success = false
leaves the in-memory user unchanged and carries a non-empty error
message; when the login request itself fails the whole state (tokens
included) is unchanged; and the message is the backend detail, message
or first non-field error, else the fixed fallback text.  (When the login
request succeeds but the profile fetch fails, the freshly stored tokens
remain in place.) -/
theorem login_failure_state_and_error :
    ∀ (st : AppState) (env : LoginEnv),
      ((login st env).2.success = false →
        (login st env).1.user = st.user ∧
        ∃ e, (login st env).2.error = some e ∧ e ≠ "") ∧
      (∀ d, env = .err d →
        login st env = (st, ⟨false, some (loginErrorMessage d)⟩)) ∧
      (∀ d : Option ErrData,
        loginErrorMessage d = "Invalid username or password" ∨
          ∃ data, d = some data ∧
            (data.detail = some (loginErrorMessage d) ∨
             data.message = some (loginErrorMessage d) ∨
             data.non_field_errors.head? = some (loginErrorMessage d))) := by
  intro st env
  refine ⟨?_, ?_, ?_⟩
  · intro hs
    cases env with
    | ok a r me =>
        cases me with
        | ok u => simp [login] at hs
        | err d =>
            exact ⟨rfl, loginErrorMessage d, rfl, loginErrorMessage_ne_empty d⟩
    | err d =>
        exact ⟨rfl, loginErrorMessage d, rfl, loginErrorMessage_ne_empty d⟩
  · intro d hd
    subst hd
    rfl
  · intro d
    cases d with
    | none => exact Or.inl rfl
    | some data =>
        rcases firstTruthy_eq_default_or_mem
          [data.detail, data.message, data.non_field_errors.head?]
          "Invalid username or password" with h | h
        · exact Or.inl h
        · refine Or.inr ⟨data, rfl, ?_⟩
          simp only [List.mem_cons, List.not_mem_nil, or_false] at h
          rcases h with h | h | h
          · exact Or.inl h.symm
          · exact Or.inr (Or.inl h.symm)
          · exact Or.inr (Or.inr h.symm)

/-- Witness for C2 at a concrete failed login request. -/
theorem login_failure_state_and_error_witness :
    login ⟨⟨some "t", some "r"⟩, none⟩
        (.err (some ⟨some "Bad credentials", none, []⟩)) =
      (⟨⟨some "t", some "r"⟩, none⟩,
        ⟨false, some (loginErrorMessage (some ⟨some "Bad credentials", none, []⟩))⟩) ∧
    loginErrorMessage (some ⟨some "Bad credentials", none, []⟩) ≠ "" := by
  have h := login_failure_state_and_error ⟨⟨some "t", some "r"⟩, none⟩
    (.err (some ⟨some "Bad credentials", none, []⟩))
  have hfail := (h.1 rfl).2
  obtain ⟨e, he, hne⟩ := hfail
  refine ⟨h.2.1 (some ⟨some "Bad credentials", none, []⟩) rfl, ?_⟩
  have : e = loginErrorMessage (some ⟨some "Bad credentials", none, []⟩) := by
    simpa [login] using he.symm
  rw [← this]
  exact hne

/-! ## C9: category change frame property -/

/-- Optional indexing into a mapIdx image. -/
theorem getElem?_mapIdx {α β : Type} (l : List α) (f : Nat → α → β) (i : Nat) :
    (l.mapIdx f)[i]? = l[i]?.map (f i) := by
  by_cases h : i < l.length
  · have hm : i < (l.mapIdx f).length := by
      rw [List.length_mapIdx]
      exact h
    rw [List.getElem?_eq_getElem hm, List.getElem?_eq_getElem h]
    have hg := List.get_mapIdx l f i h
    rw [List.get_eq_getElem, List.get_eq_getElem] at hg
    simp [hg]
  · have h2 : (l.mapIdx f).length ≤ i := by
      have := Nat.le_of_not_lt h
      simpa [List.length_mapIdx] using this
    rw [List.getElem?_eq_none h2, List.getElem?_eq_none (Nat.le_of_not_lt h)]
    rfl

/-- C9: handleCategoryChange preserves the length of the preview list,
returns every element other than position `index` unchanged, and
replaces only the `category` and `category_name` fields of the element
at `index` (all its other fields are kept). -/
theorem handleCategoryChange_frame :
    ∀ (cats : List Category) (prev : List PreviewTransaction)
      (i : Nat) (cid : Int),
      (handleCategoryChange cats prev i cid).length = prev.length ∧
      (∀ j, j ≠ i → (handleCategoryChange cats prev i cid)[j]? = prev[j]?) ∧
      (∀ t, prev[i]? = some t →
        (handleCategoryChange cats prev i cid)[i]? =
          some { t with
                 category := some cid,
                 category_name :=
                   (cats.find? (fun c => c.id == cid)).map (·.name) }) := by
  intro cats prev i cid
  refine ⟨by simp [handleCategoryChange, List.length_mapIdx], ?_, ?_⟩
  · intro j hj
    simp only [handleCategoryChange]
    rw [getElem?_mapIdx]
    cases prev[j]? with
    | none => rfl
    | some t => simp [hj]
  · intro t ht
    simp only [handleCategoryChange]
    rw [getElem?_mapIdx, ht]
    simp

/-- Witness for C9 on a concrete two-element preview list. -/
theorem handleCategoryChange_frame_witness :
    (handleCategoryChange [⟨2, "Food", none, none, none⟩]
      [⟨1, .inl 5, none, none, "a", "2024-01-01", "DEBIT", none, none⟩,
       ⟨2, .inr "7", some 9, some "Old", "b", "2024-01-02", "CREDIT", none, none⟩]
      1 2)[0]? =
      some ⟨1, .inl 5, none, none, "a", "2024-01-01", "DEBIT", none, none⟩ ∧
    (handleCategoryChange [⟨2, "Food", none, none, none⟩]
      [⟨1, .inl 5, none, none, "a", "2024-01-01", "DEBIT", none, none⟩,
       ⟨2, .inr "7", some 9, some "Old", "b", "2024-01-02", "CREDIT", none, none⟩]
      1 2)[1]? =
      some ⟨2, .inr "7", some 2, some "Food", "b", "2024-01-02", "CREDIT", none, none⟩ := by
  have h := handleCategoryChange_frame [⟨2, "Food", none, none, none⟩]
    [⟨1, .inl 5, none, none, "a", "2024-01-01", "DEBIT", none, none⟩,
     ⟨2, .inr "7", some 9, some "Old", "b", "2024-01-02", "CREDIT", none, none⟩] 1 2
  refine ⟨h.2.1 0 (by decide), ?_⟩
  exact h.2.2 ⟨2, .inr "7", some 9, some "Old", "b", "2024-01-02", "CREDIT", none, none⟩ rfl

/-! ## C10: upload progress -/

/-- C10: whenever the upload progress callback fires, the progress
event total is strictly positive (the callback is skipped otherwise),
the reported value is round(loaded · 100 / total), and that value lies
between 0 and 100 whenever loaded is at most total. -/
theorem uploadProgress_report_bounds :
    ∀ (hb : Bool) (loaded : Nat) (total : Option Nat) (v : Int),
      uploadProgressReport hb loaded total = some v →
      ∃ t : Nat, total = some t ∧ 0 < t ∧
        v = jsRound ((loaded : ℚ) * 100 / (t : ℚ)) ∧
        (loaded ≤ t → 0 ≤ v ∧ v ≤ 100) := by
  intro hb loaded total v h
  cases total with
  | none => simp [uploadProgressReport] at h
  | some t =>
      simp only [uploadProgressReport] at h
      by_cases hc : hb = true ∧ t ≠ 0
      · rw [if_pos hc] at h
        have hv : v = jsRound ((loaded : ℚ) * 100 / (t : ℚ)) :=
          (Option.some_inj.mp h).symm
        refine ⟨t, rfl, Nat.pos_of_ne_zero hc.2, hv, ?_⟩
        intro hle
        have htq : (0 : ℚ) < (t : ℚ) := by
          exact_mod_cast Nat.pos_of_ne_zero hc.2
        have hx0 : (0 : ℚ) ≤ (loaded : ℚ) * 100 / (t : ℚ) := by positivity
        have hx100 : (loaded : ℚ) * 100 / (t : ℚ) ≤ 100 := by
          rw [div_le_iff₀ htq]
          have hlq : (loaded : ℚ) ≤ (t : ℚ) := by exact_mod_cast hle
          nlinarith
        constructor
        · rw [hv]
          exact Int.le_floor.mpr (by push_cast; linarith)
        · rw [hv]
          have hlt : ⌊(loaded : ℚ) * 100 / (t : ℚ) + 1/2⌋ < 101 :=
            Int.floor_lt.mpr (by push_cast; linarith)
          unfold jsRound
          omega
      · rw [if_neg hc] at h
        simp at h

/-- Witness for C10 with a half-transferred two-byte upload. -/
theorem uploadProgress_report_bounds_witness :
    ∃ t : Nat, (some 2 : Option Nat) = some t ∧ 0 < t ∧
      (50 : Int) = jsRound ((1 : ℚ) * 100 / (t : ℚ)) ∧
      (1 ≤ t → 0 ≤ (50 : Int) ∧ (50 : Int) ≤ 100) :=
  uploadProgress_report_bounds true 1 (some 2) 50
    (by norm_num [uploadProgressReport, jsRound])

/-! ## C3: client-side financial aggregates -/

/-- Counterexample to C3 as stated: on a backend summary with income
200, expenses 50 and net balance 150, the Analytics page displays a
savings rate of 75, a number derived by arithmetic that equals none of
the backend response fields; likewise the Budgets page derives a
progress percentage of 25 from amount 200 and spent 50, again equal
to no backend field. -/
theorem analytics_savings_rate_is_computed :
    savingsRateValue (some ⟨200, 50, 150, 3, 2⟩) = 75 ∧
    ((75 : ℚ) ≠ 200 ∧ (75 : ℚ) ≠ 50 ∧ (75 : ℚ) ≠ 150 ∧
      (75 : ℚ) ≠ 3 ∧ (75 : ℚ) ≠ 2) ∧
    getProgressPercentage ⟨7, 4, none, 200, "2024-01", some 50, none, none⟩ = 25 ∧
    ((25 : ℚ) ≠ 200 ∧ (25 : ℚ) ≠ 50) := by
  refine ⟨?_, by norm_num, ?_, by norm_num⟩
  · norm_num [savingsRateValue, jsRound]
  · norm_num [getProgressPercentage, jsOrZero]

/-- C3 (amended): the Net Balance, Total Income and Total Expenses stat
cards display the backend summary fields unchanged, but the Analytics
page derives the Savings Rate client-side as
round((total_income − total_expenses) / total_income · 100) when
total_income is nonzero, and the Budgets page derives the progress
percentage as min(spent / amount · 100, 100) — never exceeding 100 —
and, when the backend remaining field is absent, the remaining amount
as amount − spent. -/
theorem statcard_passthrough_and_derived_values :
    ∀ (sum : AnalyticsSummary) (b : Budget) (s : ℚ),
      netBalanceValue (some sum) = sum.net_balance ∧
      totalIncomeValue (some sum) = sum.total_income ∧
      totalExpensesValue (some sum) = sum.total_expenses ∧
      (sum.total_income ≠ 0 →
        savingsRateValue (some sum) =
          jsRound ((sum.total_income - sum.total_expenses) /
            sum.total_income * 100)) ∧
      getProgressPercentage b ≤ 100 ∧
      (b.spent = some s → s ≠ 0 → b.remaining = none →
        getProgressPercentage b = min (s / b.amount * 100) 100 ∧
        budgetRemaining b = b.amount - s) := by
  intro sum b s
  refine ⟨?_, ?_, ?_, ?_, ?_, ?_⟩
  · by_cases h : sum.net_balance = 0 <;> simp [netBalanceValue, jsOrZero, h]
  · by_cases h : sum.total_income = 0 <;> simp [totalIncomeValue, jsOrZero, h]
  · by_cases h : sum.total_expenses = 0 <;>
      simp [totalExpensesValue, jsOrZero, h]
  · intro h
    simp [savingsRateValue, h]
  · exact min_le_right _ _
  · intro hs hs0 hr
    rw [getProgressPercentage, budgetRemaining, hs, hr]
    simp [jsOrZero, hs0]

/-- Witness for C3 (amended) at a concrete summary and budget. -/
theorem statcard_passthrough_and_derived_values_witness :
    netBalanceValue (some ⟨200, 50, 150, 3, 2⟩) = 150 ∧
    savingsRateValue (some ⟨200, 50, 150, 3, 2⟩) =
      jsRound (((200 : ℚ) - 50) / 200 * 100) ∧
    getProgressPercentage ⟨7, 4, none, 200, "2024-01", some 50, none, none⟩ ≤ 100 ∧
    budgetRemaining ⟨7, 4, none, 200, "2024-01", some 50, none, none⟩ = 200 - 50 := by
  have h := statcard_passthrough_and_derived_values ⟨200, 50, 150, 3, 2⟩
    ⟨7, 4, none, 200, "2024-01", some 50, none, none⟩ 50
  exact ⟨h.1, h.2.2.2.1 (by norm_num), h.2.2.2.2.1,
    (h.2.2.2.2.2 rfl (by norm_num) rfl).2⟩

end Trackr
